import Mathlib

/-!
Shallow embedding of the ENTE-TCP congestion-control module
(`src/ente_tcp_lkm.c`): per-connection classifier state, the entropy
estimator, the RTT statistics helper, and the congestion-control
callbacks (`init`, `cong_avoid`, `ssthresh`, `undo_cwnd`, `cwnd_event`,
`set_state`).

Machine integers are modelled as `Nat` (or `Int` for the one signed
intermediate), with explicit `% 2^w` reductions exactly where the C
code's fixed-width types can wrap.  The kernel growth primitives
(`tcp_slow_start`, `tcp_cong_avoid_ai`, `tcp_reno_cong_avoid`) are host
collaborators outside this repository; the embedding records which
primitive is invoked and with which arguments (`GrowthAction`).
-/

/-- Fuel-bounded bit length: `bitLenAux fuel n` is the number of binary
digits of `n`, provided `n < 2 ^ fuel`.  Structural in the fuel so the
kernel can evaluate it. -/
def bitLenAux : Nat → Nat → Nat
  | 0, _ => 0
  | fuel + 1, n => if n = 0 then 0 else bitLenAux fuel (n / 2) + 1

/-- Bit length of a 32-bit value: `32 - __builtin_clz n` for `0 < n < 2^32`. -/
def bitLen32 (n : Nat) : Nat := bitLenAux 32 n

/-- Two's-complement wrap of an `Int` into the signed 32-bit range,
modelling C `int` overflow behaviour on the one kernel/compiler pair the
module targets. -/
def wrapS32 (x : Int) : Int := (x + 2147483648) % 4294967296 - 2147483648

/-- Conversion of a (possibly negative) `Int` to `u64` by reduction
modulo `2^64`, modelling the C cast `(u64)`. -/
def castU64 (x : Int) : Nat := (x % 18446744073709551616).toNat

/-- The spec's tagged network-state classification, derived from the C
module's `has_entropy_data` / `is_noise` / `is_congestion` bit flags. -/
inductive Classification where
  | NoData
  | Noise
  | Congestion
  | Neutral
deriving DecidableEq, Repr

/-- Which growth primitive `ente_tcp_cong_avoid` hands the window to,
and with which arguments.  `noop` is the early return on `acked == 0`. -/
inductive GrowthAction where
  | noop
  | slowStart (acked : Nat)
  | congAvoidAi (w : Nat) (delta : Nat)
  | reno
deriving DecidableEq, Repr

/-- Host-supplied per-call TCP inputs: current congestion window
(`tp->snd_cwnd`) and scaled smoothed RTT (`tp->srtt_us`). -/
structure TcpIn where
  snd_cwnd : Nat
  srtt_us : Nat
deriving DecidableEq, Repr

/-- The module's private per-connection state `struct ente_tcp`.
`rtt_history` holds 16 `u16` samples; the bit-field flags are `Bool`. -/
structure EnteTcp where
  min_rtt_us : Nat
  prior_cwnd : Nat
  ssthresh : Nat
  rtt_history : List Nat
  history_index : Nat
  history_count : Nat
  shannon_entropy : Nat
  packets_acked : Nat
  rtt_variance : Nat
  avg_rtt_us : Nat
  has_entropy_data : Bool
  in_slow_start : Bool
  is_noise : Bool
  is_congestion : Bool
  loss_event : Bool
deriving DecidableEq, Repr

/-- The window the estimator scans: the first
`min(history_count, ENTROPY_WINDOW_SIZE)` slots of `rtt_history`. -/
def windowOf (ca : EnteTcp) : List Nat :=
  (List.range (min ca.history_count 16)).map (fun i => ca.rtt_history.getD i 0)

/-- Minimum RTT over the window, seeded with `rtt_history[0]` as the C
loop does. -/
def minVal (ca : EnteTcp) : Nat :=
  (windowOf ca).foldl Nat.min (ca.rtt_history.getD 0 0)

/-- Maximum RTT over the window, seeded with `rtt_history[0]`. -/
def maxVal (ca : EnteTcp) : Nat :=
  (windowOf ca).foldl Nat.max (ca.rtt_history.getD 0 0)

/-- `calculate_entropy` (src/ente_tcp_lkm.c:87-147): fixed-point Shannon
entropy of the RTT window, scaled to [0,1000].  Returns 0 with fewer
than 8 samples or a zero-range window.  `32 - __builtin_clz(p/1000)` is
`bitLen32 (p / 1000)`; all u64 intermediates stay below `2^64` (p ≤ 10^6,
log ≤ 10^4), so no modular reduction is needed in the accumulation. -/
def calculate_entropy (ca : EnteTcp) : Nat :=
  if ca.history_count < 8 then 0
  else
    let w := windowOf ca
    let mn := minVal ca
    let rng := maxVal ca - mn
    if rng = 0 then 0
    else
      let hist := fun b => w.countP (fun v => min ((v - mn) * 15 / rng) 15 == b)
      let total := w.length
      let entropy := (List.range 16).foldl (fun acc b =>
        if 0 < hist b then
          let p := hist b * 1000000 / total
          let logp := if 0 < p then bitLen32 (p / 1000) * 1000 else 0
          acc + p * logp / 1000000
        else acc) 0
      min (entropy / 4) 1000

/-- `update_rtt_stats` (src/ente_tcp_lkm.c:150-174).  `sum` is `u32`,
the per-sample squared deviation `diff * diff` is computed in signed
32-bit `int` (hence `wrapS32`) and then cast to `u64` (`castU64`);
`variance_sum` is `u64` and the final store truncates to `u32`. -/
def update_rtt_stats (ca : EnteTcp) : EnteTcp :=
  if ca.history_count < 4 then ca
  else
    let w := windowOf ca
    let count := w.length
    let sum := (w.foldl (fun a v => a + v) 0) % 4294967296
    let avg := sum / count
    let vsum := w.foldl (fun acc v =>
      (acc + castU64 (wrapS32 (((v : Int) - (avg : Int)) * ((v : Int) - (avg : Int)))))
        % 18446744073709551616) 0
    { ca with avg_rtt_us := (avg * 1000) % 4294967296,
              rtt_variance := (vsum / count) % 4294967296 }

/-- The spec's classification as a function of the flag bits, matching
the branch order of `ente_tcp_ssthresh`.  In every state the module
itself produces, at most one of `is_noise` / `is_congestion` is set. -/
def classification (ca : EnteTcp) : Classification :=
  if !ca.has_entropy_data then .NoData
  else if ca.is_noise then .Noise
  else if ca.is_congestion then .Congestion
  else .Neutral

/-- `ente_tcp_init` (src/ente_tcp_lkm.c:177-206), taking the host's
`tp->snd_cwnd` and pre-init `tp->snd_ssthresh` (the host's own
`snd_ssthresh` is then set to `TCP_INFINITE_SSTHRESH`, outside this
state). -/
def ente_tcp_init (snd_cwnd snd_ssthresh : Nat) : EnteTcp :=
  { min_rtt_us := 4294967295
    prior_cwnd := snd_cwnd
    ssthresh := snd_ssthresh
    rtt_history := List.replicate 16 0
    history_index := 0
    history_count := 0
    shannon_entropy := 0
    packets_acked := 0
    rtt_variance := 0
    avg_rtt_us := 0
    has_entropy_data := false
    in_slow_start := true
    is_noise := false
    is_congestion := false
    loss_event := false }

/-- The unconditional prefix of `ente_tcp_cong_avoid`
(src/ente_tcp_lkm.c:218-239): bump the `u16` ack counter, fold the
smoothed RTT into `min_rtt_us`, and store the millisecond sample in the
circular history. -/
def storePhase (tp : TcpIn) (ca : EnteTcp) (acked : Nat) : EnteTcp :=
  let pa := (ca.packets_acked + acked) % 65536
  let rtt_us0 := tp.srtt_us / 8
  let rtt_us := if rtt_us0 = 0 then 1 else rtt_us0
  let newMin := if rtt_us < ca.min_rtt_us then rtt_us else ca.min_rtt_us
  let rtt_ms0 := min (rtt_us / 1000) 65535
  let rtt_ms := if rtt_ms0 = 0 then 1 else rtt_ms0
  { ca with
    packets_acked := pa,
    min_rtt_us := newMin,
    rtt_history := ca.rtt_history.set ca.history_index rtt_ms,
    history_index := (ca.history_index + 1) % 16,
    history_count := if ca.history_count < 16 then ca.history_count + 1
                     else ca.history_count }

/-- The periodic recomputation block of `ente_tcp_cong_avoid`
(src/ente_tcp_lkm.c:242-274): store the entropy (as `u16`), refresh the
diagnostic statistics, reset the counter, set `has_entropy_data`,
classify by the entropy thresholds (700 / 400), and clear the loss
flag. -/
def recomputePhase (ca0 : EnteTcp) : EnteTcp :=
  let ca1 := { ca0 with shannon_entropy := calculate_entropy ca0 % 65536 }
  let ca2 := update_rtt_stats ca1
  let ca3 := { ca2 with packets_acked := 0, has_entropy_data := true }
  let ca4 :=
    if 700 < ca3.shannon_entropy then
      { ca3 with is_noise := true, is_congestion := false }
    else if ca3.shannon_entropy < 400 then
      { ca3 with is_noise := false, is_congestion := true }
    else
      { ca3 with is_noise := false, is_congestion := false }
  { ca4 with loss_event := false }

/-- The window-control branch of `ente_tcp_cong_avoid`
(src/ente_tcp_lkm.c:281-326).  The `u32` products `acked * 500`,
`acked * 1500` and `snd_cwnd * 1000` are reduced modulo `2^32`. -/
def growthAction (tp : TcpIn) (ca : EnteTcp) (acked : Nat) : GrowthAction :=
  if ca.in_slow_start then
    if ca.has_entropy_data && ca.is_congestion then .slowStart (acked / 2)
    else if ca.has_entropy_data && ca.is_noise then .slowStart acked
    else .slowStart acked
  else
    if ca.has_entropy_data && ca.is_congestion then
      .congAvoidAi tp.snd_cwnd
        (max 1 ((acked * 500) % 4294967296 / ((tp.snd_cwnd * 1000) % 4294967296)))
    else if ca.has_entropy_data && ca.is_noise then
      .congAvoidAi tp.snd_cwnd
        (max 1 ((acked * 1500) % 4294967296 / ((tp.snd_cwnd * 1000) % 4294967296)))
    else .reno

/-- `ente_tcp_cong_avoid` (src/ente_tcp_lkm.c:209-327): early return on
`acked == 0`, the store phase, the periodic recomputation when the
counter reaches `ENTROPY_CALC_INTERVAL = 8`, the `in_slow_start`
refresh, and finally the growth decision. -/
def ente_tcp_cong_avoid (tp : TcpIn) (ca : EnteTcp) (acked : Nat) :
    EnteTcp × GrowthAction :=
  if acked = 0 then (ca, .noop)
  else
    let ca1 := storePhase tp ca acked
    let ca2 := if 8 ≤ ca1.packets_acked then recomputePhase ca1 else ca1
    let ca3 := { ca2 with in_slow_start := decide (tp.snd_cwnd < ca2.ssthresh) }
    (ca3, growthAction tp ca3 acked)

/-- `ente_tcp_ssthresh` (src/ente_tcp_lkm.c:330-367), with the current
window `tp->snd_cwnd` passed explicitly; returns the updated state and
the new threshold. -/
def ente_tcp_ssthresh (cwnd : Nat) (ca : EnteTcp) : EnteTcp × Nat :=
  let ca1 := { ca with loss_event := true }
  let rf :=
    if ca1.has_entropy_data then
      if ca1.is_noise then 3
      else if ca1.is_congestion then 2
      else 2
    else 2
  let newSs := max (cwnd / rf) 2
  ({ ca1 with ssthresh := newSs, prior_cwnd := cwnd }, newSs)

/-- `ente_tcp_undo_cwnd` (src/ente_tcp_lkm.c:370-380): returns the new
`tp->snd_cwnd`, the updated state, and the function's return value. -/
def ente_tcp_undo_cwnd (cwnd : Nat) (ca : EnteTcp) : Nat × EnteTcp × Nat :=
  let cwnd2 := max cwnd ca.prior_cwnd
  let ca2 := { ca with in_slow_start := decide (cwnd2 < ca.ssthresh) }
  (cwnd2, ca2, max cwnd2 ca.prior_cwnd)

/-- The congestion events `ente_tcp_cwnd_event` distinguishes. -/
inductive CaEvent where
  | loss
  | cwndRestart
  | other
deriving DecidableEq, Repr

/-- `ente_tcp_cwnd_event` (src/ente_tcp_lkm.c:383-402). -/
def ente_tcp_cwnd_event (ca : EnteTcp) : CaEvent → EnteTcp
  | .loss => { ca with loss_event := true }
  | .cwndRestart => { ca with history_count := 0, has_entropy_data := false }
  | .other => ca

/-- `ente_tcp_set_state` (src/ente_tcp_lkm.c:423-431); `TCP_CA_Loss`
has kernel value 4. -/
def ente_tcp_set_state (ca : EnteTcp) (new_state : Nat) : EnteTcp :=
  if new_state = 4 then { ca with loss_event := true } else ca

/-- One host-driven callback invocation, with the host-side inputs each
call carries. -/
inductive HostEvent where
  | ack (tp : TcpIn) (acked : Nat)
  | ssthreshCall (cwnd : Nat)
  | undo (cwnd : Nat)
  | cwndEv (e : CaEvent)
  | setState (st : Nat)
deriving Repr

/-- Effect of one host callback on the private state (the host keeps
the returned window/threshold values). -/
def runEvent (ca : EnteTcp) : HostEvent → EnteTcp
  | .ack tp acked => (ente_tcp_cong_avoid tp ca acked).1
  | .ssthreshCall cwnd => (ente_tcp_ssthresh cwnd ca).1
  | .undo cwnd => (ente_tcp_undo_cwnd cwnd ca).2.1
  | .cwndEv e => ente_tcp_cwnd_event ca e
  | .setState st => ente_tcp_set_state ca st

/-- One acknowledgment event, for sequences of ACKs. -/
def ackStep (ca : EnteTcp) (e : TcpIn × Nat) : EnteTcp :=
  (ente_tcp_cong_avoid e.1 ca e.2).1

/-- Exact mean squared deviation of the current window, the value the
spec says `rtt_variance` holds ("mean squared deviation ... using
widened accumulation to avoid overflow"): the same formula as
`update_rtt_stats` but computed in unbounded arithmetic. -/
def exactVariance (ca : EnteTcp) : Nat :=
  let w := windowOf ca
  let avg := (w.foldl (fun a v => a + v) 0) / w.length
  (w.foldl (fun acc v =>
    acc + (((v : Int) - (avg : Int)) * ((v : Int) - (avg : Int))).toNat) 0) / w.length

/-! ## Helper lemmas -/

theorem calculate_entropy_le (ca : EnteTcp) : calculate_entropy ca ≤ 1000 := by
  unfold calculate_entropy
  split
  · omega
  · dsimp only
    split
    · omega
    · exact Nat.min_le_right _ _

theorem update_rtt_stats_min_rtt (ca : EnteTcp) :
    (update_rtt_stats ca).min_rtt_us = ca.min_rtt_us := by
  unfold update_rtt_stats; split <;> rfl

theorem update_rtt_stats_shannon (ca : EnteTcp) :
    (update_rtt_stats ca).shannon_entropy = ca.shannon_entropy := by
  unfold update_rtt_stats; split <;> rfl

theorem storePhase_shannon (tp : TcpIn) (ca : EnteTcp) (acked : Nat) :
    (storePhase tp ca acked).shannon_entropy = ca.shannon_entropy := rfl

theorem storePhase_is_noise (tp : TcpIn) (ca : EnteTcp) (acked : Nat) :
    (storePhase tp ca acked).is_noise = ca.is_noise := rfl

theorem storePhase_is_congestion (tp : TcpIn) (ca : EnteTcp) (acked : Nat) :
    (storePhase tp ca acked).is_congestion = ca.is_congestion := rfl

theorem storePhase_min_rtt_le (tp : TcpIn) (ca : EnteTcp) (acked : Nat) :
    (storePhase tp ca acked).min_rtt_us ≤ ca.min_rtt_us := by
  unfold storePhase
  dsimp only
  split <;> split <;> omega

theorem recomputePhase_min_rtt (ca : EnteTcp) :
    (recomputePhase ca).min_rtt_us = ca.min_rtt_us := by
  unfold recomputePhase
  dsimp only
  split
  · simp [update_rtt_stats_min_rtt]
  · split <;> simp [update_rtt_stats_min_rtt]

theorem recomputePhase_fields (ca : EnteTcp) :
    (recomputePhase ca).shannon_entropy = calculate_entropy ca % 65536 ∧
    (recomputePhase ca).packets_acked = 0 ∧
    (recomputePhase ca).has_entropy_data = true ∧
    (recomputePhase ca).loss_event = false ∧
    (recomputePhase ca).is_noise = decide (700 < calculate_entropy ca % 65536) ∧
    (recomputePhase ca).is_congestion =
      (!decide (700 < calculate_entropy ca % 65536) &&
        decide (calculate_entropy ca % 65536 < 400)) := by
  unfold recomputePhase
  dsimp only
  rw [update_rtt_stats_shannon]
  dsimp only
  split
  · rename_i h7
    simp [update_rtt_stats_shannon, h7]
  · split
    · rename_i h7 h4
      simp [update_rtt_stats_shannon, h7, h4]
    · rename_i h7 h4
      simp [update_rtt_stats_shannon, h7, h4]

theorem recomputePhase_excl (ca : EnteTcp) :
    ¬((recomputePhase ca).is_noise = true ∧ (recomputePhase ca).is_congestion = true) := by
  obtain ⟨-, -, -, -, hn, hc⟩ := recomputePhase_fields ca
  rw [hn, hc]
  by_cases h7 : 700 < calculate_entropy ca % 65536 <;> simp [h7]

theorem cong_avoid_state (tp : TcpIn) (ca : EnteTcp) (acked : Nat) (h0 : acked ≠ 0) :
    (ente_tcp_cong_avoid tp ca acked).1 =
      (let ca1 := storePhase tp ca acked
       let ca2 := if 8 ≤ ca1.packets_acked then recomputePhase ca1 else ca1
       { ca2 with in_slow_start := decide (tp.snd_cwnd < ca2.ssthresh) }) := by
  unfold ente_tcp_cong_avoid
  rw [if_neg h0]

theorem cong_avoid_snd (tp : TcpIn) (ca : EnteTcp) (acked : Nat) (h0 : acked ≠ 0) :
    (ente_tcp_cong_avoid tp ca acked).2 =
      growthAction tp (ente_tcp_cong_avoid tp ca acked).1 acked := by
  unfold ente_tcp_cong_avoid
  rw [if_neg h0]

theorem cong_avoid_excl (tp : TcpIn) (ca : EnteTcp) (acked : Nat)
    (hex : ¬(ca.is_noise = true ∧ ca.is_congestion = true)) :
    ¬((ente_tcp_cong_avoid tp ca acked).1.is_noise = true ∧
      (ente_tcp_cong_avoid tp ca acked).1.is_congestion = true) := by
  unfold ente_tcp_cong_avoid
  split
  · exact hex
  · dsimp only
    split
    · exact recomputePhase_excl _
    · rw [storePhase_is_noise, storePhase_is_congestion]
      exact hex

theorem ackStep_min_rtt (ca : EnteTcp) (e : TcpIn × Nat) :
    (ackStep ca e).min_rtt_us ≤ ca.min_rtt_us := by
  unfold ackStep ente_tcp_cong_avoid
  split
  · exact le_refl _
  · dsimp only
    split
    · rw [recomputePhase_min_rtt]
      exact storePhase_min_rtt_le _ _ _
    · exact storePhase_min_rtt_le _ _ _

theorem foldl_ackStep_min_rtt (evs : List (TcpIn × Nat)) :
    ∀ ca : EnteTcp, (evs.foldl ackStep ca).min_rtt_us ≤ ca.min_rtt_us := by
  induction evs with
  | nil => intro ca; exact le_refl _
  | cons e rest ih =>
      intro ca
      exact le_trans (ih (ackStep ca e)) (ackStep_min_rtt ca e)

theorem cong_avoid_shannon_le (tp : TcpIn) (ca : EnteTcp) (acked : Nat)
    (h : ca.shannon_entropy ≤ 1000) :
    (ente_tcp_cong_avoid tp ca acked).1.shannon_entropy ≤ 1000 := by
  unfold ente_tcp_cong_avoid
  split
  · exact h
  · dsimp only
    split
    · rw [(recomputePhase_fields _).1]
      exact le_trans (Nat.mod_le _ _) (calculate_entropy_le _)
    · rw [storePhase_shannon]
      exact h

theorem runEvent_shannon_le (ca : EnteTcp) (e : HostEvent)
    (h : ca.shannon_entropy ≤ 1000) :
    (runEvent ca e).shannon_entropy ≤ 1000 := by
  cases e with
  | ack tp acked => exact cong_avoid_shannon_le tp ca acked h
  | ssthreshCall cwnd => exact h
  | undo cwnd => exact h
  | cwndEv ev => cases ev <;> exact h
  | setState st =>
      show (ente_tcp_set_state ca st).shannon_entropy ≤ 1000
      unfold ente_tcp_set_state
      split <;> exact h

theorem foldl_runEvent_shannon_le (evs : List HostEvent) :
    ∀ ca : EnteTcp, ca.shannon_entropy ≤ 1000 →
      (evs.foldl runEvent ca).shannon_entropy ≤ 1000 := by
  induction evs with
  | nil => intro ca h; exact h
  | cons e rest ih =>
      intro ca h
      exact ih (runEvent ca e) (runEvent_shannon_le ca e h)

theorem growthAction_eq (tp : TcpIn) (ca : EnteTcp) (acked : Nat)
    (hex : ¬(ca.is_noise = true ∧ ca.is_congestion = true))
    (h15 : acked * 1500 < 4294967296) (h10 : tp.snd_cwnd * 1000 < 4294967296) :
    growthAction tp ca acked =
      (if ca.in_slow_start then
        if classification ca = .Congestion then GrowthAction.slowStart (acked / 2)
        else GrowthAction.slowStart acked
      else
        if classification ca = .Congestion then
          GrowthAction.congAvoidAi tp.snd_cwnd
            (max 1 (acked * 500 / (tp.snd_cwnd * 1000)))
        else if classification ca = .Noise then
          GrowthAction.congAvoidAi tp.snd_cwnd
            (max 1 (acked * 1500 / (tp.snd_cwnd * 1000)))
        else GrowthAction.reno) := by
  have h5 : acked * 500 < 4294967296 := by omega
  obtain ⟨mr, pc, ss, rh, hi, hc, se, pa, rv, ar, hed, iss, isn, isc, le⟩ := ca
  simp only at hex
  cases hed <;> cases iss <;> cases isn <;> cases isc <;>
    simp_all [growthAction, classification, Nat.mod_eq_of_lt h5,
      Nat.mod_eq_of_lt h15, Nat.mod_eq_of_lt h10]

/-! ## Claim theorems -/

/-- C1: the entropy estimator always returns a value in [0,1000] (the
lower bound holds by the `Nat` codomain), and the stored
`shannon_entropy` (`entropy_score`) field is in [0,1000] after every
host event sequence from `init`, for any inputs. -/
theorem C1_entropy_score_bounds :
    (∀ ca : EnteTcp, calculate_entropy ca ≤ 1000) ∧
    (∀ (cwnd ssth : Nat) (evs : List HostEvent),
        (evs.foldl runEvent (ente_tcp_init cwnd ssth)).shannon_entropy ≤ 1000) :=
  ⟨calculate_entropy_le,
   fun _ _ evs => foldl_runEvent_shannon_le evs _ (Nat.zero_le 1000)⟩

/-- C2 (code bug): from a freshly initialised state, a single ACK event
carrying `acked = 8` (window 10, infinite threshold, smoothed RTT
40000us) triggers the periodic recomputation with only one stored RTT
sample: the final state has `history_count = 1 < 8`, yet
`has_entropy_data` is set and the classification is Congestion (the
insufficient-data sentinel `entropy = 0` falls below the 400 threshold)
instead of staying NoData, and the slow-start step is the halved
`acked / 2 = 4` instead of the entropy-agnostic default `acked = 8`. -/
theorem C2_premature_classification_bug :
    (ente_tcp_cong_avoid ⟨10, 40000⟩ (ente_tcp_init 10 2147483647) 8).1.history_count = 1 ∧
    (ente_tcp_cong_avoid ⟨10, 40000⟩ (ente_tcp_init 10 2147483647) 8).1.has_entropy_data = true ∧
    classification (ente_tcp_cong_avoid ⟨10, 40000⟩ (ente_tcp_init 10 2147483647) 8).1 =
      .Congestion ∧
    (ente_tcp_cong_avoid ⟨10, 40000⟩ (ente_tcp_init 10 2147483647) 8).2 = .slowStart 4 ∧
    GrowthAction.slowStart 4 ≠ GrowthAction.slowStart 8 := by
  decide

/-- C3: `ente_tcp_ssthresh` returns `max(cwnd / 3, 2)` under Noise and
`max(cwnd / 2, 2)` under Congestion, Neutral or NoData; in every case it
sets the loss flag, stores the returned value as the new threshold, and
snapshots `prior_cwnd = cwnd`. -/
theorem C3_ssthresh_policy (cwnd : Nat) (ca : EnteTcp) :
    (ente_tcp_ssthresh cwnd ca).2 =
      max (cwnd / (if classification ca = .Noise then 3 else 2)) 2 ∧
    (ente_tcp_ssthresh cwnd ca).1.loss_event = true ∧
    (ente_tcp_ssthresh cwnd ca).1.ssthresh = (ente_tcp_ssthresh cwnd ca).2 ∧
    (ente_tcp_ssthresh cwnd ca).1.prior_cwnd = cwnd := by
  obtain ⟨mr, pc, ss, rh, hi, hc, se, pa, rv, ar, hed, iss, isn, isc, le⟩ := ca
  cases hed <;> cases isn <;> cases isc <;> simp [ente_tcp_ssthresh, classification]

/-- State used by the C4 counterexample and witness: entropy data
present, Noise classified, threshold 2 (so the connection is in
congestion avoidance), and the ack counter positioned so the adversarial
ack count does not retrigger a recomputation. -/
def c4state : EnteTcp :=
  { ente_tcp_init 10 2147483647 with
    packets_acked := 20272, has_entropy_data := true, is_noise := true, ssthresh := 2 }

/-- C4 (counterexample): with `acked = 2863312` and window 2, the `u32`
product `acked * 1500` wraps modulo `2^32` to 704, so the code passes
delta 1 to the linear-growth primitive while the claim's formula
`max(1, acked * 1500 / (cwnd * 1000))` yields 2147484. -/
theorem C4_counterexample_u32_wrap :
    classification (ente_tcp_cong_avoid ⟨2, 8⟩ c4state 2863312).1 = .Noise ∧
    (ente_tcp_cong_avoid ⟨2, 8⟩ c4state 2863312).1.in_slow_start = false ∧
    (ente_tcp_cong_avoid ⟨2, 8⟩ c4state 2863312).2 = .congAvoidAi 2 1 ∧
    GrowthAction.congAvoidAi 2 1 ≠
      GrowthAction.congAvoidAi 2 (max 1 (2863312 * 1500 / (2 * 1000))) := by
  decide

/-- C4 (amended): provided the `u32` products do not overflow
(`acked * 1500 < 2^32`, `cwnd * 1000 < 2^32`, which also bounds
`acked * 500`), the growth decision follows the claimed policy, stated
over the post-event state and its classification.  The mutual-exclusion
hypothesis on the two classifier bits holds in every state the module
itself produces (`recomputePhase_excl`). -/
theorem C4_growth_policy (tp : TcpIn) (ca : EnteTcp) (acked : Nat)
    (h0 : acked ≠ 0)
    (hex : ¬(ca.is_noise = true ∧ ca.is_congestion = true))
    (h15 : acked * 1500 < 4294967296) (h10 : tp.snd_cwnd * 1000 < 4294967296) :
    (ente_tcp_cong_avoid tp ca acked).2 =
      (if (ente_tcp_cong_avoid tp ca acked).1.in_slow_start then
        if classification (ente_tcp_cong_avoid tp ca acked).1 = .Congestion then
          GrowthAction.slowStart (acked / 2)
        else GrowthAction.slowStart acked
      else
        if classification (ente_tcp_cong_avoid tp ca acked).1 = .Congestion then
          GrowthAction.congAvoidAi tp.snd_cwnd
            (max 1 (acked * 500 / (tp.snd_cwnd * 1000)))
        else if classification (ente_tcp_cong_avoid tp ca acked).1 = .Noise then
          GrowthAction.congAvoidAi tp.snd_cwnd
            (max 1 (acked * 1500 / (tp.snd_cwnd * 1000)))
        else GrowthAction.reno) := by
  rw [cong_avoid_snd tp ca acked h0]
  exact growthAction_eq tp _ acked (cong_avoid_excl tp ca acked hex) h15 h10

/-- Witness instantiating `C4_growth_policy` at a concrete input. -/
theorem C4_growth_policy_witness :
    ((1 : Nat) ≠ 0 ∧ ¬(c4state.is_noise = true ∧ c4state.is_congestion = true) ∧
      1 * 1500 < 4294967296 ∧ 2 * 1000 < 4294967296) ∧
    (ente_tcp_cong_avoid ⟨2, 8⟩ c4state 1).2 =
      (if (ente_tcp_cong_avoid ⟨2, 8⟩ c4state 1).1.in_slow_start then
        if classification (ente_tcp_cong_avoid ⟨2, 8⟩ c4state 1).1 = .Congestion then
          GrowthAction.slowStart (1 / 2)
        else GrowthAction.slowStart 1
      else
        if classification (ente_tcp_cong_avoid ⟨2, 8⟩ c4state 1).1 = .Congestion then
          GrowthAction.congAvoidAi 2 (max 1 (1 * 500 / (2 * 1000)))
        else if classification (ente_tcp_cong_avoid ⟨2, 8⟩ c4state 1).1 = .Noise then
          GrowthAction.congAvoidAi 2 (max 1 (1 * 1500 / (2 * 1000)))
        else GrowthAction.reno) :=
  ⟨⟨by decide, by decide, by decide, by decide⟩,
   C4_growth_policy ⟨2, 8⟩ c4state 1 (by decide) (by decide) (by decide) (by decide)⟩

/-- C5: after the recomputation block the stored classification is the
pure threshold function of the just-computed entropy score (above 700
Noise, below 400 Congestion, otherwise Neutral), the loss flag is
cleared, and the acked-packet counter is reset to 0. -/
theorem C5_recompute_classification (ca : EnteTcp) :
    classification (recomputePhase ca) =
      (if 700 < (recomputePhase ca).shannon_entropy then Classification.Noise
       else if (recomputePhase ca).shannon_entropy < 400 then Classification.Congestion
       else Classification.Neutral) ∧
    (recomputePhase ca).loss_event = false ∧
    (recomputePhase ca).packets_acked = 0 := by
  obtain ⟨hs, hp, hh, hl, hn, hc⟩ := recomputePhase_fields ca
  refine ⟨?_, hl, hp⟩
  unfold classification
  rw [hs, hh, hn, hc]
  by_cases h7 : 700 < calculate_entropy ca % 65536 <;>
    by_cases h4 : calculate_entropy ca % 65536 < 400 <;> simp [h7, h4]

/-- State used by the C6 counterexample: a full window of in-range
samples with one extreme outlier. -/
def c6state : EnteTcp :=
  { ente_tcp_init 10 2147483647 with
    rtt_history := 65535 :: List.replicate 15 1, history_count := 16 }

/-- C6 (code bug): on the full window [65535, 1, ..., 1] — every sample
within [1, 65535] — the per-sample squared deviation (61439^2) overflows
the signed 32-bit intermediate of `update_rtt_stats`, so the stored
`rtt_variance` (4278174721) differs from the exact mean squared
deviation (251642881). -/
theorem C6_variance_overflow_bug :
    ((windowOf c6state).length = 16 ∧
      ∀ v ∈ windowOf c6state, 1 ≤ v ∧ v ≤ 65535) ∧
    (update_rtt_stats c6state).rtt_variance = 4278174721 ∧
    exactVariance c6state = 251642881 ∧
    (update_rtt_stats c6state).rtt_variance ≠ exactVariance c6state := by
  decide

/-- C7: the entropy estimator returns 0 with fewer than 8 samples, and
returns 0 whenever the window has no variation (`max_val = min_val`),
regardless of how many samples are stored. -/
theorem C7_entropy_zero_cases (ca : EnteTcp) :
    (ca.history_count < 8 → calculate_entropy ca = 0) ∧
    (maxVal ca = minVal ca → calculate_entropy ca = 0) := by
  constructor
  · intro h
    unfold calculate_entropy
    rw [if_pos h]
  · intro h
    unfold calculate_entropy
    split
    · rfl
    · dsimp only
      simp [h, Nat.sub_self]

/-- State used by the C7 witness: a full window of identical samples. -/
def c7state : EnteTcp :=
  { ente_tcp_init 10 2147483647 with
    rtt_history := List.replicate 16 7, history_count := 16 }

/-- Witness instantiating both parts of `C7_entropy_zero_cases`. -/
theorem C7_entropy_zero_cases_witness :
    ((ente_tcp_init 10 2147483647).history_count < 8 ∧
      calculate_entropy (ente_tcp_init 10 2147483647) = 0) ∧
    (maxVal c7state = minVal c7state ∧ calculate_entropy c7state = 0) :=
  ⟨⟨by decide, (C7_entropy_zero_cases _).1 (by decide)⟩,
   ⟨by decide, (C7_entropy_zero_cases _).2 (by decide)⟩⟩

/-- C8: `min_rtt_us` is non-increasing across every sequence of
acknowledgment events (any RTT and ack-count inputs), and an
idle-restart event zeroes `history_count`, forces the classification
back to NoData, and leaves `min_rtt_us` unchanged. -/
theorem C8_min_rtt_and_restart :
    (∀ (evs : List (TcpIn × Nat)) (ca : EnteTcp),
        (evs.foldl ackStep ca).min_rtt_us ≤ ca.min_rtt_us) ∧
    (∀ ca : EnteTcp,
        (ente_tcp_cwnd_event ca .cwndRestart).history_count = 0 ∧
        classification (ente_tcp_cwnd_event ca .cwndRestart) = .NoData ∧
        (ente_tcp_cwnd_event ca .cwndRestart).min_rtt_us = ca.min_rtt_us) := by
  refine ⟨foldl_ackStep_min_rtt, fun ca => ⟨rfl, ?_, rfl⟩⟩
  simp [ente_tcp_cwnd_event, classification]

/-- C9: `undo_cwnd` sets the window to `max(cwnd, prior_cwnd)`,
recomputes `in_slow_start` against the threshold while touching no other
field, and neither the new window nor the returned value is below the
pre-call window. -/
theorem C9_undo_cwnd_spec (cwnd : Nat) (ca : EnteTcp) :
    (ente_tcp_undo_cwnd cwnd ca).1 = max cwnd ca.prior_cwnd ∧
    (ente_tcp_undo_cwnd cwnd ca).2.1 =
      { ca with in_slow_start := decide ((ente_tcp_undo_cwnd cwnd ca).1 < ca.ssthresh) } ∧
    cwnd ≤ (ente_tcp_undo_cwnd cwnd ca).1 ∧
    cwnd ≤ (ente_tcp_undo_cwnd cwnd ca).2.2 :=
  ⟨rfl, rfl, Nat.le_max_left _ _,
   le_trans (Nat.le_max_left _ _) (Nat.le_max_left _ _)⟩

/-- C10: `undo_cwnd` is idempotent: an immediate second call produces
the same window, the same private state and the same return value as the
first call. -/
theorem C10_undo_idempotent (cwnd : Nat) (ca : EnteTcp) :
    ente_tcp_undo_cwnd (ente_tcp_undo_cwnd cwnd ca).1 (ente_tcp_undo_cwnd cwnd ca).2.1 =
      ente_tcp_undo_cwnd cwnd ca := by
  obtain ⟨mr, pc, ss, rh, hi, hc, se, pa, rv, ar, hed, iss, isn, isc, le⟩ := ca
  simp [ente_tcp_undo_cwnd, Nat.max_assoc, Nat.max_self]
